import Mathlib

/-!
Shallow embedding of the ts2gd scene-resolution model
(src/project/assets/asset_godot_scene.ts) and of the this-keyword
translation rule (src/parse_node/parse_this_keyword.ts).

Stateful aspects are made explicit:
  * the process-wide diagnostics sink (`addError`) becomes an emitted
    `List Diag` returned alongside results;
  * `throw new Error(msg)` becomes `Except.error msg`;
  * JavaScript truthiness tests on optional strings / numbers are modelled
    by `strOptTruthy` / `natOptTruthy` (undefined, `""` and `0` are falsy);
  * terminal colouring (`chalk.blue` / `chalk.red`) only wraps text in
    escape codes for display; it is modelled as the identity on the text.
-/

/-- The apostrophe character as a string (used inside source message texts). -/
def apos : String := (Char.ofNat 39).toString

/-- JavaScript truthiness of an optional string: `undefined` and `""` are falsy. -/
def strOptTruthy (o : Option String) : Bool :=
  match o with
  | none => false
  | some s => s != ""

/-- JavaScript truthiness of an optional number: `undefined` and `0` are falsy. -/
def natOptTruthy (o : Option Nat) : Bool :=
  match o with
  | none => false
  | some k => k != 0

/-- Error kinds used by this file's `addError` calls (from src usage of errors.ts). -/
inductive ErrorName
  | InvalidFile
  | Ts2GdError
deriving Repr, DecidableEq

/-- One structured diagnostic appended to the process-wide sink by `addError`.
The `stack` field of the source is environment-dependent (a captured JS call
stack) and carries no program-level information, so it is not modelled. -/
structure Diag where
  description : String
  error : ErrorName
  location : String
deriving Repr, DecidableEq

/-- `ResourceTemp` of asset_godot_scene.ts: one external-resource table entry. -/
structure ResourceTemp where
  resPath : String
  fsPath : String
  id : Nat
deriving Repr, DecidableEq

/-- The per-node data a `GodotNode` stores: name, `_type`, `parent`, groups,
the first positional argument of the section's `instance` attribute, and
`scriptExtResourceId` (the first positional argument of the `script`
attribute). `type` is `none` when the node section carries no type tag. -/
structure GodotNodeData where
  name : String
  type : Option String
  parent : Option String
  groups : List String
  instanceArg : Option Nat
  scriptExtResourceId : Option Nat
deriving Repr, DecidableEq

/-- `GodotNode.isRoot`: `props.$section.parent ? false : true`. -/
def isRoot (n : GodotNodeData) : Bool :=
  !(strOptTruthy n.parent)

/-- `GodotNode.scenePath()`: "." for the root, the name for a direct child of
the root, `parent ++ "/" ++ name` otherwise. -/
def scenePath (n : GodotNodeData) : String :=
  if !(strOptTruthy n.parent) then "."
  else if n.parent == some "." then n.name
  else n.parent.getD "" ++ "/" ++ n.name

/-- `GodotNode.instanceId()`: returns `$section.instance?.args[0]`, guarding
explicitly so that a numeric id of 0 is preserved rather than treated as
absent (`if (!instanceId && instanceId !== 0) return undefined`). -/
def instanceId (n : GodotNodeData) : Option Nat :=
  let i := n.instanceArg
  if !(natOptTruthy i) && i != some 0 then none else i

/-- `GodotNode.isInstance()`: `!!this.instanceId()` — JavaScript double
negation, under which the valid id 0 coerces to `false`. -/
def isInstance (n : GodotNodeData) : Bool :=
  natOptTruthy (instanceId n)

/-- `GodotNode.isInstanceOverride()`: `!this._type && !this.isInstance()`. -/
def isInstanceOverride (n : GodotNodeData) : Bool :=
  !(strOptTruthy n.type) && !(isInstance n)

/-- `AssetSourceFile`, as the resolver consumes it: its paths and the result
of the semantic query `exportedTsClassName()` (a black-box query on the
source-language front end; `none` models a falsy answer). -/
structure AssetSourceFile where
  fsPath : String
  resPath : String
  exportedTsClassName : Option String
deriving Repr, DecidableEq

/-- `AssetGlb`, as the resolver consumes it. Modelled from the spec: binary
model assets are opaque resources identified by path; their `tsType()` is an
opaque string taken as given (`tsTypeVal`). -/
structure AssetGlb where
  fsPath : String
  resPath : String
  tsTypeVal : String
deriving Repr, DecidableEq

/-- `AssetGodotScene`: paths, parsed node list and external-resource table.
`rootNode` is not stored: the scene is immutable after construction, so the
constructor's `nodes.find((node) => !node.parent)` is the derived
`rootNodeOf` below. -/
structure AssetGodotScene where
  fsPath : String
  resPath : String
  name : String
  nodes : List GodotNodeData
  resources : List ResourceTemp
deriving Repr, DecidableEq

/-- The constructor's root discovery: `this.nodes.find((node) => !node.parent)!`.
The non-null assertion is modelled by returning an `Option`: `none` is the
undefined that the assertion hides. -/
def rootNodeOf (s : AssetGodotScene) : Option GodotNodeData :=
  s.nodes.find? (fun n => !(strOptTruthy n.parent))

/-- One entry of the project-wide asset list. -/
inductive TsGdAsset
  | sourceFile (sf : AssetSourceFile)
  | godotScene (s : AssetGodotScene)
  | glb (g : AssetGlb)
deriving Repr, DecidableEq

/-- `TsGdProjectClass`, as the resolver consumes it: the full asset list. -/
structure TsGdProject where
  assets : List TsGdAsset
deriving Repr, DecidableEq

/-- Modelled from the spec: the project exposes lookup of its assets by kind;
`godotScenes()` is the asset list filtered to scenes. -/
def godotScenes (p : TsGdProject) : List AssetGodotScene :=
  p.assets.filterMap (fun a =>
    match a with
    | TsGdAsset.godotScene s => some s
    | _ => none)

/-- Modelled from the spec: `godotGlbs()` is the asset list filtered to glbs. -/
def godotGlbs (p : TsGdProject) : List AssetGlb :=
  p.assets.filterMap (fun a =>
    match a with
    | TsGdAsset.glb g => some g
    | _ => none)

/-- Modelled from the spec: `sourceFiles()` is the asset list filtered to
source files. -/
def sourceFiles (p : TsGdProject) : List AssetSourceFile :=
  p.assets.filterMap (fun a =>
    match a with
    | TsGdAsset.sourceFile sf => some sf
    | _ => none)

/-- `project.assets.find(sf => sf instanceof AssetSourceFile && sf.resPath === rp)`. -/
def findSourceFileAsset (p : TsGdProject) (rp : String) : Option AssetSourceFile :=
  match p.assets.find? (fun a =>
    match a with
    | TsGdAsset.sourceFile sf => sf.resPath == rp
    | _ => false) with
  | some (TsGdAsset.sourceFile sf) => some sf
  | _ => none

/-- Result of `GodotNode.instance()`: a scene or a glb. -/
inductive SceneOrGlb
  | scene (s : AssetGodotScene)
  | glb (g : AssetGlb)
deriving Repr, DecidableEq

/-- The message of the error thrown by `GodotNode.instance()` on a resource id
that is absent from the owning scene's resource table. -/
def cantFindSceneMsg (iid : Nat) (sp : String) : String :=
  "Can" ++ apos ++ "t find associated scene for id " ++ toString iid ++ " on " ++ sp

/-- The message of the error thrown by `GodotNode.getScript()` on a script
resource id that is absent from the containing scene's resource table (the
source interpolates `this.scene.fsPath`, the fsPath of the node's own scene). -/
def expectedResourceMsg (sid : Nat) (fsPath : String) : String :=
  "expected to be able to find a resource with id " ++ toString sid ++
    " in script " ++ fsPath ++ ", but did not."

/-- Models the JavaScript TypeError raised when the constructor's non-null
assertion on `rootNode` was wrong and a property of `undefined` is read. -/
def typeErrorUndefinedMsg : String := "TypeError: cannot read property of undefined"

/-- Model artifact: the source recursion over instancing chains has no fuel
and would not terminate on a cyclic chain; running out of fuel is reported as
an error so that every stated result is at adequate fuel. -/
def fuelMsg : String := "resolution recursion fuel exhausted"

/-- `GodotNode.instance()`: resolve `instanceId` through the owning scene's
resource table (throwing when the id is missing from the table), then look the
resolved fsPath up among the project's scenes and then its glbs; `none` when
the node is not an instance or when no matching asset exists in the project. -/
def nodeInstance (p : TsGdProject) (s : AssetGodotScene) (n : GodotNodeData) :
    Except String (Option SceneOrGlb) :=
  match instanceId n with
  | none => Except.ok none
  | some iid =>
    match s.resources.find? (fun r => r.id == iid) with
    | none => Except.error (cantFindSceneMsg iid (scenePath n))
    | some res =>
      match (godotScenes p).find? (fun sc => sc.fsPath == res.fsPath) with
      | some sc => Except.ok (some (SceneOrGlb.scene sc))
      | none =>
        match (godotGlbs p).find? (fun g => g.fsPath == res.fsPath) with
        | some g => Except.ok (some (SceneOrGlb.glb g))
        | none => Except.ok none

/-- `GodotNode.children()`: the owning scene's nodes whose `parent` attribute
equals this node's `scenePath()` (strict string equality, so a node with no
parent attribute never matches) and that are not instance overrides. -/
def childrenOf (s : AssetGodotScene) (n : GodotNodeData) : List GodotNodeData :=
  s.nodes.filter (fun m =>
    (match m.parent with
     | some q => q == scenePath n
     | none => false) && !(isInstanceOverride m))

/-- `GodotNode.getScript()`: the effective script id is the node's own
`scriptExtResourceId` when truthy; otherwise, when the node instances a scene,
the instanced scene's root node's `scriptExtResourceId` (read directly, not
recursively) with the instanced scene as the containing scene. A still-falsy
id yields no script; a truthy id missing from the containing scene's resource
table throws; otherwise the matching source-file asset (if any) is returned. -/
def getScript (p : TsGdProject) (s : AssetGodotScene) (n : GodotNodeData) :
    Except String (Option AssetSourceFile) :=
  let step : Except String (Option (Nat × AssetGodotScene)) :=
    if natOptTruthy n.scriptExtResourceId then
      Except.ok (some (n.scriptExtResourceId.getD 0, s))
    else
      match nodeInstance p s n with
      | Except.error e => Except.error e
      | Except.ok (some (SceneOrGlb.scene sc)) =>
        match rootNodeOf sc with
        | none => Except.error typeErrorUndefinedMsg
        | some r =>
          if natOptTruthy r.scriptExtResourceId then
            Except.ok (some (r.scriptExtResourceId.getD 0, sc))
          else Except.ok none
      | Except.ok _ => Except.ok none
  match step with
  | Except.error e => Except.error e
  | Except.ok none => Except.ok none
  | Except.ok (some (scriptId, sceneContainingScript)) =>
    match sceneContainingScript.resources.find? (fun r => r.id == scriptId) with
    | none => Except.error (expectedResourceMsg scriptId s.fsPath)
    | some externalResource => Except.ok (findSourceFileAsset p externalResource.resPath)

/-- The internal-bug diagnostic `GodotNode.tsType()` emits when asked for the
type of an instance override. -/
def overrideDiag (n : GodotNodeData) : Diag :=
  { description := "Error: should never try to get the type of an instance override. This is a ts2gd internal bug. Please report it on GitHub."
    error := ErrorName.InvalidFile
    location := n.name }

/-- The user-facing diagnostic `GodotNode.tsType()` emits when the node's
instance resolves through the table but the referenced asset is missing from
the project. -/
def danglingDiag (s : AssetGodotScene) (n : GodotNodeData) : Diag :=
  { description := "Error: Your Godot scene " ++ s.fsPath ++ " refers to " ++
      scenePath n ++ ", but it doesn" ++ apos ++
      "t exist. It may have been deleted from the project. the tstype was " ++ s.resPath
    error := ErrorName.InvalidFile
    location := n.name }

/-- The diagnostic `AssetGodotScene.tsType()` emits when the root script's
resource path has no matching project source file. -/
def rootSourceDiag (rs : AssetSourceFile) : Diag :=
  { description := "Failed to find root source file for " ++ rs.fsPath
    error := ErrorName.Ts2GdError
    location := rs.fsPath }

/-- The diagnostic `AssetGodotScene.tsType()` emits when the root source file
has no exported class name. -/
def classNameDiag (rs : AssetSourceFile) : Diag :=
  { description := "Failed to find classname for " ++ rs.fsPath
    error := ErrorName.Ts2GdError
    location := rs.fsPath }

/-- The qualified identifier `AssetGodotScene.tsType()` returns:
`import('<fsPath without its ".ts" suffix>').<exported class name>`. -/
def importString (sf : AssetSourceFile) : String :=
  "import(" ++ apos ++ sf.fsPath.dropRight 3 ++ apos ++ ")." ++
    sf.exportedTsClassName.getD ""

/-- A pending type query: `GodotNode.tsType()` on a node of a scene, or
`AssetGodotScene.tsType()` on a scene. The two methods are mutually
recursive through instancing. -/
inductive TsTypeQuery
  | nodeQ (s : AssetGodotScene) (n : GodotNodeData)
  | sceneQ (s : AssetGodotScene)

/-- The mutual recursion of `GodotNode.tsType()` and `AssetGodotScene.tsType()`,
made total with fuel. Results pair the returned string with the diagnostics
appended to the sink, in emission order; thrown errors are `Except.error`. -/
def resolveTsType (p : TsGdProject) : Nat → TsTypeQuery → Except String (String × List Diag)
  | 0, _ => Except.error fuelMsg
  | fuel + 1, TsTypeQuery.nodeQ s n =>
    if strOptTruthy n.type then
      Except.ok (n.type.getD "", [])
    else if isInstanceOverride n then
      Except.ok ("any", [overrideDiag n])
    else
      match nodeInstance p s n with
      | Except.error e => Except.error e
      | Except.ok none => Except.ok ("any", [danglingDiag s n])
      | Except.ok (some (SceneOrGlb.scene sc)) =>
        match resolveTsType p fuel (TsTypeQuery.sceneQ sc) with
        | Except.error e => Except.error e
        | Except.ok (t, ds) =>
          if t != "" then Except.ok (t, ds)
          else Except.ok ("any", ds ++ [danglingDiag s n])
      | Except.ok (some (SceneOrGlb.glb g)) =>
        if g.tsTypeVal != "" then Except.ok (g.tsTypeVal, [])
        else Except.ok ("any", [danglingDiag s n])
  | fuel + 1, TsTypeQuery.sceneQ s =>
    match rootNodeOf s with
    | none => Except.error typeErrorUndefinedMsg
    | some root =>
      match getScript p s root with
      | Except.error e => Except.error e
      | Except.ok none => resolveTsType p fuel (TsTypeQuery.nodeQ s root)
      | Except.ok (some rootScript) =>
        match (sourceFiles p).find? (fun sf => sf.resPath == rootScript.resPath) with
        | none => Except.ok ("any", [rootSourceDiag rootScript])
        | some rootSourceFile =>
          if strOptTruthy rootSourceFile.exportedTsClassName then
            Except.ok (importString rootSourceFile, [])
          else
            Except.ok ("any", [classNameDiag rootScript])

/-- `GodotNode.tsType()`. -/
def nodeTsType (p : TsGdProject) (s : AssetGodotScene) (n : GodotNodeData)
    (fuel : Nat) : Except String (String × List Diag) :=
  resolveTsType p fuel (TsTypeQuery.nodeQ s n)

/-- `AssetGodotScene.tsType()`. -/
def sceneTsType (p : TsGdProject) (s : AssetGodotScene)
    (fuel : Nat) : Except String (String × List Diag) :=
  resolveTsType p fuel (TsTypeQuery.sceneQ s)

/-- One `ext_resource` section of a parsed scene file (its `$section`
attributes relevant to `AssetGodotScene`'s resource construction). -/
structure ExtResourceSection where
  path : String
  id : Nat
deriving Repr, DecidableEq

/-- One `node` section of a parsed scene file: its `$section` attributes plus
the first positional argument of the node-level `instance` and `script`
attributes, already extracted by the config-format layer. -/
structure NodeSection where
  name : String
  type : Option String
  parent : Option String
  groups : Option (List String)
  instanceArg : Option Nat
  scriptArg : Option Nat
deriving Repr, DecidableEq

/-- The parsed scene file handed to `AssetGodotScene`'s constructor (the
output of `parseGodotConfigFile`, which is the out-of-scope config parser). -/
structure SceneFile where
  ext_resource : List ExtResourceSection
  node : List NodeSection
deriving Repr, DecidableEq

/-- The `GodotNode` constructor: field-for-field extraction from the node
section (`groups ?? []`, `parent ?? undefined`, `script?.args?.[0]`). -/
def mkGodotNode (ns : NodeSection) : GodotNodeData :=
  { name := ns.name
    type := ns.type
    parent := ns.parent
    groups := ns.groups.getD []
    instanceArg := ns.instanceArg
    scriptExtResourceId := ns.scriptArg }

/-- `path.basename(fsPath, ".tscn")`: the last "/"-separated segment with a
trailing ".tscn" stripped (the path module is external; modelled for POSIX
separators). -/
def basenameTscn (fsPath : String) : String :=
  let base := (fsPath.splitOn "/").getLastD fsPath
  if base.endsWith ".tscn" then base.dropRight 5 else base

/-- The `AssetGodotScene` constructor, over an already-parsed scene file.
`fsPathToResPath` and `resPathToFsPath` are the project layer's pure
bidirectional virtual-path translation, consumed as parameters. The second
component is the list of diagnostics the constructor appends to the sink:
the constructor contains no `addError` call, so it is always empty. -/
def mkAssetGodotScene (fsPathToResPath : String → String)
    (resPathToFsPath : String → String)
    (fsPath : String) (sceneFile : SceneFile) : AssetGodotScene × List Diag :=
  ({ fsPath := fsPath
     resPath := fsPathToResPath fsPath
     name := basenameTscn fsPath
     resources := sceneFile.ext_resource.map (fun r =>
       { resPath := r.path
         fsPath := resPathToFsPath r.path
         id := r.id })
     nodes := sceneFile.node.map mkGodotNode }, [])

/-- A source-language `ThisExpression` AST node, as the translation rule
consumes it: the rule reads nothing from it, so only an opaque payload (the
node's position) is carried. -/
structure ThisExpression where
  pos : Nat
deriving Repr, DecidableEq

/-- Modelled from the spec: the translation-side ParseState (src/parse_node.ts
is not part of the sample) — an immutable snapshot of indentation depth,
lexical scope/bindings, enclosing class context and pending diagnostics
context, threaded through recursive translation. -/
structure ParseState where
  indent : Nat
  scope : List String
  enclosingClass : Option String
  diagContext : String
deriving Repr, DecidableEq

/-- Modelled from the spec: the ParseNode-shaped result of a translation rule
(src/parse_node.ts is not part of the sample) — the produced target text. -/
structure ParseNodeType where
  content : String
deriving Repr, DecidableEq

/-- Modelled from the spec: the generic `combine` operation (src/parse_node.ts
is not part of the sample) — it takes the parent node, the ordered list of
child nodes to recurse into, the current ParseState and a template from
child-output strings to final text; it recursively translates each child
(through the engine entry point, taken here as the parameter `parseNode`)
under the given state and applies the template to the child outputs. -/
def combine {α : Type} (_parent : α) (nodes : List α) (props : ParseState)
    (parseNode : α → ParseState → ParseNodeType)
    (parsedStrings : List String → String) : ParseNodeType :=
  { content := parsedStrings (nodes.map (fun c => (parseNode c props).content)) }

/-- `parseThisKeyword` (src/parse_node/parse_this_keyword.ts): combine with no
child nodes and the fixed template producing the identifier "self". The
engine's dispatcher is a parameter (in the source it is the module-level
`parseNode` that `combine` closes over). -/
def parseThisKeyword (parseNode : ThisExpression → ParseState → ParseNodeType)
    (node : ThisExpression) (props : ParseState) : ParseNodeType :=
  combine node [] props parseNode (fun _ => "self")

/-! ## Concrete fixtures -/

/-- A node with no declared type whose instance id 5 is present in its scene's
resource table, while the referenced scene is missing from the project. -/
def c1Node : GodotNodeData :=
  { name := "X", type := none, parent := some ".", groups := [],
    instanceArg := some 5, scriptExtResourceId := none }

/-- The root of the fixture scene owning `c1Node`. -/
def c1Root : GodotNodeData :=
  { name := "ARoot", type := some "Node2D", parent := none, groups := [],
    instanceArg := none, scriptExtResourceId := none }

/-- A scene whose table maps id 5 to a file absent from the project. -/
def c1Scene : AssetGodotScene :=
  { fsPath := "A.tscn", resPath := "res://A.tscn", name := "A",
    nodes := [c1Root, c1Node],
    resources := [{ resPath := "res://B.tscn", fsPath := "B.tscn", id := 5 }] }

/-- A project containing only `c1Scene` (no asset at B.tscn). -/
def c1Proj : TsGdProject := { assets := [TsGdAsset.godotScene c1Scene] }

/-- A node with no declared type and no instance attribute at all. -/
def c1WitNode : GodotNodeData :=
  { name := "W", type := none, parent := some ".", groups := [],
    instanceArg := none, scriptExtResourceId := none }

/-- A typeless node whose instance attribute carries the numeric id 0. -/
def c2Node : GodotNodeData :=
  { name := "Inst0", type := none, parent := some ".", groups := [],
    instanceArg := some 0, scriptExtResourceId := none }

/-- The root of the fixture scene owning `c2Node`. -/
def c2Root : GodotNodeData :=
  { name := "A2Root", type := some "Node2D", parent := none, groups := [],
    instanceArg := none, scriptExtResourceId := none }

/-- The scene `c2Node`'s id 0 resolves to. -/
def c2SceneB : AssetGodotScene :=
  { fsPath := "B2.tscn", resPath := "res://B2.tscn", name := "B2",
    nodes := [{ name := "B2Root", type := some "Node2D", parent := none,
                groups := [], instanceArg := none, scriptExtResourceId := none }],
    resources := [] }

/-- A scene whose table maps the valid id 0 to `c2SceneB`. -/
def c2SceneA : AssetGodotScene :=
  { fsPath := "A2.tscn", resPath := "res://A2.tscn", name := "A2",
    nodes := [c2Root, c2Node],
    resources := [{ resPath := "res://B2.tscn", fsPath := "B2.tscn", id := 0 }] }

/-- A project containing both fixture scenes of the id-0 configuration. -/
def c2Proj : TsGdProject :=
  { assets := [TsGdAsset.godotScene c2SceneA, TsGdAsset.godotScene c2SceneB] }

/-- A node whose instance id 9 is dangling (absent from the resource table). -/
def c3NodeA : GodotNodeData :=
  { name := "DanglingInst", type := none, parent := some ".", groups := [],
    instanceArg := some 9, scriptExtResourceId := none }

/-- A node whose script id 9 is dangling (absent from the resource table). -/
def c3NodeB : GodotNodeData :=
  { name := "DanglingScript", type := some "Node2D", parent := some ".",
    groups := [], instanceArg := none, scriptExtResourceId := some 9 }

/-- A node carrying the valid script resource id 0 and no instance, with the
id absent from the owning scene's table. -/
def c3NodeD : GodotNodeData :=
  { name := "Script0", type := some "Node2D", parent := some ".",
    groups := [], instanceArg := none, scriptExtResourceId := some 0 }

/-- A scene with an empty resource table owning the dangling-id nodes. -/
def c3Scene : AssetGodotScene :=
  { fsPath := "A3.tscn", resPath := "res://A3.tscn", name := "A3",
    nodes := [c1Root, c3NodeA, c3NodeB, c3NodeD], resources := [] }

/-- A node whose instance id 6 resolves in the table to a project-missing file. -/
def c3NodeC : GodotNodeData :=
  { name := "Gone", type := none, parent := some ".", groups := [],
    instanceArg := some 6, scriptExtResourceId := none }

/-- A scene whose table maps id 6 to a file with no matching project asset. -/
def c3SceneC : AssetGodotScene :=
  { fsPath := "A3c.tscn", resPath := "res://A3c.tscn", name := "A3c",
    nodes := [c1Root, c3NodeC],
    resources := [{ resPath := "res://gone.tscn", fsPath := "gone.tscn", id := 6 }] }

/-- A project containing the dangling-id fixture scenes and nothing else. -/
def c3Proj : TsGdProject :=
  { assets := [TsGdAsset.godotScene c3Scene, TsGdAsset.godotScene c3SceneC] }

/-- Fixture virtual-path translation (project layer, pure). -/
def c4F2R (s : String) : String := "res://" ++ s

/-- Fixture filesystem-path translation (project layer, pure). -/
def c4R2F (s : String) : String := s.drop 6

/-- A malformed parsed scene file holding two parent-less node sections. -/
def c4File : SceneFile :=
  { ext_resource := [],
    node := [{ name := "FirstRoot", type := some "Node2D", parent := none,
               groups := none, instanceArg := none, scriptArg := none },
             { name := "SecondRoot", type := some "Node2D", parent := none,
               groups := none, instanceArg := none, scriptArg := none }] }

/-- The scene constructed from the malformed two-root file. -/
def c4Scene : AssetGodotScene :=
  (mkAssetGodotScene c4F2R c4R2F "two_roots.tscn" c4File).1

/-- The node built from the first parent-less section of the malformed file. -/
def c4FirstRoot : GodotNodeData :=
  { name := "FirstRoot", type := some "Node2D", parent := none, groups := [],
    instanceArg := none, scriptExtResourceId := none }

/-- A well-formed parsed scene file with exactly one parent-less node section. -/
def c4WellFile : SceneFile :=
  { ext_resource := [],
    node := [{ name := "Root", type := some "Node2D", parent := none,
               groups := none, instanceArg := none, scriptArg := none },
             { name := "Child", type := some "Node2D", parent := some ".",
               groups := none, instanceArg := none, scriptArg := none }] }

/-- The scene constructed from the well-formed file. -/
def c4WellScene : AssetGodotScene :=
  (mkAssetGodotScene c4F2R c4R2F "well.tscn" c4WellFile).1

/-- The node built from the unique parent-less section of the well-formed file. -/
def c4WellRoot : GodotNodeData :=
  { name := "Root", type := some "Node2D", parent := none, groups := [],
    instanceArg := none, scriptExtResourceId := none }

/-- A scene whose root has a declared type and no backing script. -/
def c5Scene : AssetGodotScene :=
  { fsPath := "R5.tscn", resPath := "res://R5.tscn", name := "R5",
    nodes := [{ name := "R5Root", type := some "Node2D", parent := none,
                groups := [], instanceArg := none, scriptExtResourceId := none }],
    resources := [] }

/-- The root node of `c5Scene`. -/
def c5Root : GodotNodeData :=
  { name := "R5Root", type := some "Node2D", parent := none, groups := [],
    instanceArg := none, scriptExtResourceId := none }

/-- A project source file with an exported class. -/
def c5Sf : AssetSourceFile :=
  { fsPath := "game/p.ts", resPath := "res://p.ts",
    exportedTsClassName := some "P" }

/-- A scene whose root carries script id 1, resolving to `c5Sf`. -/
def c5bScene : AssetGodotScene :=
  { fsPath := "S5.tscn", resPath := "res://S5.tscn", name := "S5",
    nodes := [{ name := "S5Root", type := some "Node2D", parent := none,
                groups := [], instanceArg := none, scriptExtResourceId := some 1 }],
    resources := [{ resPath := "res://p.ts", fsPath := "game/p.ts", id := 1 }] }

/-- The root node of `c5bScene`. -/
def c5bRoot : GodotNodeData :=
  { name := "S5Root", type := some "Node2D", parent := none, groups := [],
    instanceArg := none, scriptExtResourceId := some 1 }

/-- A project holding both C5 fixture scenes and the source file. -/
def c5Proj : TsGdProject :=
  { assets := [TsGdAsset.godotScene c5Scene, TsGdAsset.godotScene c5bScene,
               TsGdAsset.sourceFile c5Sf] }

/-- The source file backing scene C of the instancing chain. -/
def c6Sf : AssetSourceFile :=
  { fsPath := "game/c.ts", resPath := "res://c.ts",
    exportedTsClassName := some "CClass" }

/-- Root of chain scene C: carries the concrete script id 7. -/
def c6RootC : GodotNodeData :=
  { name := "CRoot", type := some "Node2D", parent := none, groups := [],
    instanceArg := none, scriptExtResourceId := some 7 }

/-- Chain scene C, whose table maps id 7 to the backing source file. -/
def c6SceneC : AssetGodotScene :=
  { fsPath := "C6.tscn", resPath := "res://C6.tscn", name := "C6",
    nodes := [c6RootC],
    resources := [{ resPath := "res://c.ts", fsPath := "game/c.ts", id := 7 }] }

/-- Root of chain scene B: no script of its own, instances scene C. -/
def c6RootB : GodotNodeData :=
  { name := "BRoot", type := none, parent := none, groups := [],
    instanceArg := some 3, scriptExtResourceId := none }

/-- Chain scene B, instancing scene C through id 3. -/
def c6SceneB : AssetGodotScene :=
  { fsPath := "B6.tscn", resPath := "res://B6.tscn", name := "B6",
    nodes := [c6RootB],
    resources := [{ resPath := "res://C6.tscn", fsPath := "C6.tscn", id := 3 }] }

/-- Root of chain scene A: no script of its own, instances scene B. -/
def c6RootA : GodotNodeData :=
  { name := "ARoot", type := none, parent := none, groups := [],
    instanceArg := some 2, scriptExtResourceId := none }

/-- Chain scene A, instancing scene B through id 2. -/
def c6SceneA : AssetGodotScene :=
  { fsPath := "A6.tscn", resPath := "res://A6.tscn", name := "A6",
    nodes := [c6RootA],
    resources := [{ resPath := "res://B6.tscn", fsPath := "B6.tscn", id := 2 }] }

/-- The project holding the full A → B → C instancing chain. -/
def c6Proj : TsGdProject :=
  { assets := [TsGdAsset.godotScene c6SceneA, TsGdAsset.godotScene c6SceneB,
               TsGdAsset.godotScene c6SceneC, TsGdAsset.sourceFile c6Sf] }

/-- The source file backing scene C of the C7 chain. -/
def c7Sf : AssetSourceFile :=
  { fsPath := "game/c7.ts", resPath := "res://c7.ts",
    exportedTsClassName := some "C7Class" }

/-- Root of C7 chain scene C: carries the concrete script id 7. -/
def c7RootC : GodotNodeData :=
  { name := "C7Root", type := some "Node2D", parent := none, groups := [],
    instanceArg := none, scriptExtResourceId := some 7 }

/-- C7 chain scene C. -/
def c7SceneC : AssetGodotScene :=
  { fsPath := "C7.tscn", resPath := "res://C7.tscn", name := "C7",
    nodes := [c7RootC],
    resources := [{ resPath := "res://c7.ts", fsPath := "game/c7.ts", id := 7 }] }

/-- Root of C7 chain scene B: no script of its own, instances scene C. -/
def c7RootB : GodotNodeData :=
  { name := "B7Root", type := none, parent := none, groups := [],
    instanceArg := some 3, scriptExtResourceId := none }

/-- C7 chain scene B. -/
def c7SceneB : AssetGodotScene :=
  { fsPath := "B7.tscn", resPath := "res://B7.tscn", name := "B7",
    nodes := [c7RootB],
    resources := [{ resPath := "res://C7.tscn", fsPath := "C7.tscn", id := 3 }] }

/-- A non-root node of scene A instancing scene B, with no script of its own. -/
def c7NodeN : GodotNodeData :=
  { name := "NB", type := none, parent := some ".", groups := [],
    instanceArg := some 4, scriptExtResourceId := none }

/-- C7 chain scene A, whose child node `c7NodeN` instances scene B. -/
def c7SceneA : AssetGodotScene :=
  { fsPath := "A7.tscn", resPath := "res://A7.tscn", name := "A7",
    nodes := [{ name := "A7Root", type := some "Node2D", parent := none,
                groups := [], instanceArg := none, scriptExtResourceId := none },
              c7NodeN],
    resources := [{ resPath := "res://B7.tscn", fsPath := "B7.tscn", id := 4 }] }

/-- The project holding the C7 chain. -/
def c7Proj : TsGdProject :=
  { assets := [TsGdAsset.godotScene c7SceneA, TsGdAsset.godotScene c7SceneB,
               TsGdAsset.godotScene c7SceneC, TsGdAsset.sourceFile c7Sf] }

/-- A source file backing the one-level C7 witness scene. -/
def c7wSf : AssetSourceFile :=
  { fsPath := "game/w7.ts", resPath := "res://w7.ts",
    exportedTsClassName := some "W7Class" }

/-- Root of the one-level witness scene D: carries script id 5 directly. -/
def c7wRootD : GodotNodeData :=
  { name := "D7Root", type := some "Node2D", parent := none, groups := [],
    instanceArg := none, scriptExtResourceId := some 5 }

/-- One-level witness scene D. -/
def c7wSceneD : AssetGodotScene :=
  { fsPath := "D7.tscn", resPath := "res://D7.tscn", name := "D7",
    nodes := [c7wRootD],
    resources := [{ resPath := "res://w7.ts", fsPath := "game/w7.ts", id := 5 }] }

/-- A scriptless node instancing scene D. -/
def c7wNodeE : GodotNodeData :=
  { name := "ED", type := none, parent := some ".", groups := [],
    instanceArg := some 9, scriptExtResourceId := none }

/-- One-level witness scene E owning `c7wNodeE`. -/
def c7wSceneE : AssetGodotScene :=
  { fsPath := "E7.tscn", resPath := "res://E7.tscn", name := "E7",
    nodes := [{ name := "E7Root", type := some "Node2D", parent := none,
                groups := [], instanceArg := none, scriptExtResourceId := none },
              c7wNodeE],
    resources := [{ resPath := "res://D7.tscn", fsPath := "D7.tscn", id := 9 }] }

/-- The project of the one-level witness configuration. -/
def c7wProj : TsGdProject :=
  { assets := [TsGdAsset.godotScene c7wSceneE, TsGdAsset.godotScene c7wSceneD,
               TsGdAsset.sourceFile c7wSf] }

/-- Root node of the children fixture scene. -/
def c8Root : GodotNodeData :=
  { name := "R8", type := some "Node2D", parent := none, groups := [],
    instanceArg := none, scriptExtResourceId := none }

/-- A freshly declared child of the root. -/
def c8Child : GodotNodeData :=
  { name := "K8", type := some "Sprite", parent := some ".", groups := [],
    instanceArg := none, scriptExtResourceId := none }

/-- An override node positioned as a child of the root. -/
def c8Ovr : GodotNodeData :=
  { name := "O8", type := none, parent := some ".", groups := [],
    instanceArg := none, scriptExtResourceId := none }

/-- The children fixture scene. -/
def c8Scene : AssetGodotScene :=
  { fsPath := "S8.tscn", resPath := "res://S8.tscn", name := "S8",
    nodes := [c8Root, c8Child, c8Ovr], resources := [] }

/-- An override node (typeless, no instance) for the C9 witness. -/
def c9Ovr : GodotNodeData :=
  { name := "O9", type := none, parent := some ".", groups := [],
    instanceArg := none, scriptExtResourceId := none }

/-- A node with a declared type for the C9 witness. -/
def c9Typed : GodotNodeData :=
  { name := "T9", type := some "Node2D", parent := some ".", groups := [],
    instanceArg := none, scriptExtResourceId := none }

/-- A minimal scene owning the C9 witness nodes. -/
def c9Scene : AssetGodotScene :=
  { fsPath := "S9.tscn", resPath := "res://S9.tscn", name := "S9",
    nodes := [c1Root, c9Ovr, c9Typed], resources := [] }

/-- An empty project for the C9 witness. -/
def c9Proj : TsGdProject := { assets := [] }

/-! ## Helper lemmas -/

/-- Filtering down to exactly one element means `find?` returns that element. -/
theorem find?_of_filter_singleton {α : Type} (p : α → Bool) :
    ∀ (l : List α) (r : α), l.filter p = [r] → l.find? p = some r := by
  intro l
  induction l with
  | nil => intro r h; simp at h
  | cons a t ih =>
    intro r h
    cases hp : p a with
    | true =>
      rw [List.filter_cons, if_pos hp] at h
      injection h with h1 h2
      rw [List.find?_cons, hp, h1]
    | false =>
      rw [List.filter_cons, if_neg (by simp [hp])] at h
      rw [List.find?_cons, hp]
      exact ih r h

/-- The qualified import identifier is at least as long as its fixed prefix. -/
theorem importString_length (sf : AssetSourceFile) :
    7 ≤ (importString sf).length := by
  unfold importString
  simp only [String.length_append]
  have h7 : String.length "import(" = 7 := rfl
  omega

/-- The qualified import identifier is never the empty string. -/
theorem importString_ne_empty (sf : AssetSourceFile) : importString sf ≠ "" := by
  intro h
  have h1 := importString_length sf
  rw [h] at h1
  simp at h1

/-! ## Theorems -/

/-- C1 (counterexample): a node with no declared type whose instance id is in
the table but whose referenced asset is missing from the project: `instance()`
returns nothing, yet `isInstanceOverride()` is false — refuting "true iff
`declaredType` absent and `instance(node)` returns nothing". -/
theorem c1_counterexample :
    c1Node.type = none
    ∧ nodeInstance c1Proj c1Scene c1Node = Except.ok none
    ∧ isInstanceOverride c1Node = false := ⟨rfl, rfl, rfl⟩

/-- C1 (amended): `isInstanceOverride(N)` is true iff `declaredType` is falsy
and `N` carries no nonzero instance id (`instanceId` absent or 0) — a
syntactic test that never consults `instance()` resolution. A node with a
truthy declared type yields false; a typeless node with a nonzero instance id
yields false; a typeless node with no instance attribute yields true. -/
theorem c1_isInstanceOverride_characterization (n : GodotNodeData) (k : Nat) :
    (isInstanceOverride n = true ↔
      (strOptTruthy n.type = false ∧ (instanceId n = none ∨ instanceId n = some 0)))
    ∧ (strOptTruthy n.type = true → isInstanceOverride n = false)
    ∧ (n.type = none → n.instanceArg = some k → k ≠ 0 → isInstanceOverride n = false)
    ∧ (n.type = none → n.instanceArg = none → isInstanceOverride n = true) := by
  obtain ⟨nm, ty, pa, gr, ia, si⟩ := n
  refine ⟨?_, ?_, ?_, ?_⟩
  · cases ia with
    | none => simp [isInstanceOverride, isInstance, instanceId, natOptTruthy]
    | some k' =>
      by_cases h0 : k' = 0
      · subst h0
        simp [isInstanceOverride, isInstance, instanceId, natOptTruthy]
      · simp [isInstanceOverride, isInstance, instanceId, natOptTruthy, h0]
  · intro h
    simp [isInstanceOverride, h]
  · intro h1 h2 h3
    subst h1
    subst h2
    simp [isInstanceOverride, isInstance, instanceId, natOptTruthy, strOptTruthy, h3]
  · intro h1 h2
    subst h1
    subst h2
    simp [isInstanceOverride, isInstance, instanceId, natOptTruthy, strOptTruthy]

/-- C1 (witness): the amended characterization evaluated on the constructed
fixtures: a typeless instance-less node is an override, and the typeless node
with the nonzero instance id 5 is not. -/
theorem c1_witness :
    isInstanceOverride c1WitNode = true ∧ isInstanceOverride c1Node = false :=
  ⟨(c1_isInstanceOverride_characterization c1WitNode 1).2.2.2 rfl rfl,
   (c1_isInstanceOverride_characterization c1Node 5).2.2.1 rfl rfl (by decide)⟩

/-- C2 (code bug evaluation): for a node whose instance attribute carries the
valid numeric id 0, `instanceId()` preserves the id (its explicit
`instanceId !== 0` guard) and `instance()` resolves it to the referenced
scene, but `isInstance()` — `!!this.instanceId()` — collapses 0 to false, so
the node is (mis)classified as having no instance and as an instance
override. -/
theorem c2_instance_id_zero_bug :
    instanceId c2Node = some 0
    ∧ nodeInstance c2Proj c2SceneA c2Node = Except.ok (some (SceneOrGlb.scene c2SceneB))
    ∧ isInstance c2Node = false
    ∧ isInstanceOverride c2Node = true := ⟨rfl, rfl, rfl, rfl⟩

/-- C10: translating a this-expression yields exactly the identifier "self",
for every AST node, every ParseState and every engine dispatcher. -/
theorem c10_parseThisKeyword_self
    (parseNode : ThisExpression → ParseState → ParseNodeType)
    (node : ThisExpression) (props : ParseState) :
    (parseThisKeyword parseNode node props).content = "self" := rfl

/-- C3 (counterexample): a node carrying the valid script resource id 0,
absent from the owning scene's (empty) resource table: `getScript` neither
raises nor reports — the falsy check on the script id collapses 0 and skips
the table lookup, silently returning nothing — refuting "resolution raises"
for every node carrying a table-absent id. -/
theorem c3_counterexample :
    c3NodeD.scriptExtResourceId = some 0
    ∧ c3Scene.resources.find? (fun r => r.id == 0) = none
    ∧ getScript c3Proj c3Scene c3NodeD = Except.ok none := ⟨rfl, rfl, rfl⟩

/-- C3 (amended): an instance resource id absent from the owning scene's
resource table makes `instance()` throw for every id, 0 included (the id-0
guard in `instanceId` keeps the lookup reachable); `getScript()`'s table
lookup throws only for a truthy (nonzero) script id — a script id of 0 is
collapsed by the falsy check and, absent instance inheritance, `getScript`
silently returns nothing without consulting the table. An id that resolves in
the table to an asset missing from the project makes `tsType()` append a
diagnostic to the sink and return the sentinel "any" without throwing. -/
theorem c3_error_paths :
    (∀ (p : TsGdProject) (s : AssetGodotScene) (n : GodotNodeData) (iid : Nat),
      instanceId n = some iid →
      s.resources.find? (fun r => r.id == iid) = none →
      nodeInstance p s n = Except.error (cantFindSceneMsg iid (scenePath n)))
    ∧ (∀ (p : TsGdProject) (s : AssetGodotScene) (n : GodotNodeData) (sid : Nat),
      n.scriptExtResourceId = some sid → sid ≠ 0 →
      s.resources.find? (fun r => r.id == sid) = none →
      getScript p s n = Except.error (expectedResourceMsg sid s.fsPath))
    ∧ (∀ (p : TsGdProject) (s : AssetGodotScene) (n : GodotNodeData),
      n.scriptExtResourceId = some 0 →
      instanceId n = none →
      getScript p s n = Except.ok none)
    ∧ (∀ (p : TsGdProject) (s : AssetGodotScene) (n : GodotNodeData)
        (iid : Nat) (res : ResourceTemp) (fuel : Nat),
      strOptTruthy n.type = false →
      instanceId n = some iid → iid ≠ 0 →
      s.resources.find? (fun r => r.id == iid) = some res →
      (godotScenes p).find? (fun sc => sc.fsPath == res.fsPath) = none →
      (godotGlbs p).find? (fun g => g.fsPath == res.fsPath) = none →
      nodeTsType p s n (fuel + 1) = Except.ok ("any", [danglingDiag s n])) := by
  refine ⟨?_, ?_, ?_, ?_⟩
  · intro p s n iid h1 h2
    simp [nodeInstance, h1, h2]
  · intro p s n sid h1 h0 h2
    simp [getScript, natOptTruthy, h1, h0, h2]
  · intro p s n h1 h2
    simp [getScript, natOptTruthy, h1, nodeInstance, h2]
  · intro p s n iid res fuel h1 h2 h3 h4 h5 h6
    simp [nodeTsType, resolveTsType, isInstanceOverride, isInstance, h1, h2, h3,
      nodeInstance, natOptTruthy, h4, h5, h6]

/-- C3 (witness): the amended error paths evaluated on constructed fixtures —
a dangling instance id throws, a dangling nonzero script id throws, the
dangling script id 0 silently yields nothing, and a table-resolved but
project-missing instance yields a diagnostic and "any". -/
theorem c3_witness :
    nodeInstance c3Proj c3Scene c3NodeA
      = Except.error (cantFindSceneMsg 9 (scenePath c3NodeA))
    ∧ getScript c3Proj c3Scene c3NodeB
      = Except.error (expectedResourceMsg 9 c3Scene.fsPath)
    ∧ getScript c3Proj c3Scene c3NodeD = Except.ok none
    ∧ nodeTsType c3Proj c3SceneC c3NodeC 1
      = Except.ok ("any", [danglingDiag c3SceneC c3NodeC]) :=
  ⟨c3_error_paths.1 c3Proj c3Scene c3NodeA 9 rfl rfl,
   c3_error_paths.2.1 c3Proj c3Scene c3NodeB 9 rfl (by decide) rfl,
   c3_error_paths.2.2.1 c3Proj c3Scene c3NodeD rfl rfl,
   c3_error_paths.2.2.2 c3Proj c3SceneC c3NodeC 6
     { resPath := "res://gone.tscn", fsPath := "gone.tscn", id := 6 } 0
     rfl rfl (by decide) rfl rfl rfl⟩

/-- C4 (counterexample): constructing a scene from a malformed file with two
parent-less node sections reports no error at all (the diagnostic list is
empty), marks both nodes as roots, and silently uses the first-found node as
`rootNode` instead of falling back to a root-less scene. -/
theorem c4_counterexample :
    (mkAssetGodotScene c4F2R c4R2F "two_roots.tscn" c4File).2 = []
    ∧ c4Scene.nodes.countP (fun n => isRoot n) = 2
    ∧ rootNodeOf c4Scene = some c4FirstRoot := ⟨rfl, rfl, rfl⟩

/-- C4 (amended): construction never reports: its diagnostic list is always
empty, `rootNode` is always the first parent-less node in section order
(`undefined` when none exists), and for a well-formed input whose node list
has exactly one root-shaped node, that node becomes `rootNode`. -/
theorem c4_construction_behavior (f g : String → String) (fp : String)
    (file : SceneFile) :
    (mkAssetGodotScene f g fp file).2 = []
    ∧ rootNodeOf (mkAssetGodotScene f g fp file).1
        = (mkAssetGodotScene f g fp file).1.nodes.find? (fun n => isRoot n)
    ∧ (∀ r, (mkAssetGodotScene f g fp file).1.nodes.filter (fun n => isRoot n) = [r] →
        rootNodeOf (mkAssetGodotScene f g fp file).1 = some r) := by
  refine ⟨rfl, rfl, ?_⟩
  intro r h
  show (mkAssetGodotScene f g fp file).1.nodes.find? (fun n => isRoot n) = some r
  exact find?_of_filter_singleton _ _ r h

/-- C4 (witness): on the well-formed fixture file with exactly one parent-less
section, construction makes that node the root. -/
theorem c4_witness : rootNodeOf c4WellScene = some c4WellRoot :=
  (c4_construction_behavior c4F2R c4R2F "well.tscn" c4WellFile).2.2 c4WellRoot rfl

/-- C5 (counterexample): a scene whose root has a declared type and no backing
script: scene-level `tsType()` falls back to the root's type with an empty
diagnostic list — no diagnostic naming the scene is reported, refuting the
claimed "reports a diagnostic ... and falls back" for every no-script scene. -/
theorem c5_counterexample :
    sceneTsType c5Proj c5Scene 2 = Except.ok ("Node2D", []) := rfl

/-- C5 (amended): when the root has no backing script, scene-level `tsType()`
silently falls back to the root node's `tsType()` (any diagnostic can only
arise inside that call); when the root's script resolves to a project source
file with a truthy exported class, it returns the qualified import
identifier; a diagnostic naming the unresolved asset is emitted only on the
path where the script was found but no matching project source file exists,
returning "any". -/
theorem c5_sceneTsType_behavior (p : TsGdProject) (s : AssetGodotScene)
    (root : GodotNodeData) (fuel : Nat)
    (hroot : rootNodeOf s = some root) :
    (getScript p s root = Except.ok none →
      sceneTsType p s (fuel + 1) = nodeTsType p s root fuel)
    ∧ (∀ (rs sf : AssetSourceFile) (c : String),
        getScript p s root = Except.ok (some rs) →
        (sourceFiles p).find? (fun f => f.resPath == rs.resPath) = some sf →
        sf.exportedTsClassName = some c → c ≠ "" →
        sceneTsType p s (fuel + 1) = Except.ok (importString sf, []))
    ∧ (∀ rs : AssetSourceFile,
        getScript p s root = Except.ok (some rs) →
        (sourceFiles p).find? (fun f => f.resPath == rs.resPath) = none →
        sceneTsType p s (fuel + 1) = Except.ok ("any", [rootSourceDiag rs])) := by
  refine ⟨?_, ?_, ?_⟩
  · intro h
    simp [sceneTsType, nodeTsType, resolveTsType, hroot, h]
  · intro rs sf c h1 h2 h3 h4
    simp [sceneTsType, resolveTsType, hroot, h1, h2, strOptTruthy, h3, h4]
  · intro rs h1 h2
    simp [sceneTsType, resolveTsType, hroot, h1, h2]

/-- C5 (witness): the amended behavior on the fixtures — the no-script scene
falls back to its root's type resolution, and the scripted scene returns the
qualified import identifier of its exported class. -/
theorem c5_witness :
    sceneTsType c5Proj c5Scene 2 = nodeTsType c5Proj c5Scene c5Root 1
    ∧ sceneTsType c5Proj c5bScene 2 = Except.ok (importString c5Sf, []) :=
  ⟨(c5_sceneTsType_behavior c5Proj c5Scene c5Root 1 rfl).1 rfl,
   (c5_sceneTsType_behavior c5Proj c5bScene c5bRoot 1 rfl).2.1 c5Sf c5Sf "P"
     rfl rfl rfl (by decide)⟩

/-- C6: instancing is transitive — when scene A's root instances scene B,
B's root instances scene C, and C's root carries a concrete script resolving
to a project source file with an exported class, A's root node's `tsType()`
returns that script-derived qualified identifier with no diagnostics, not an
intermediate placeholder or the "any" sentinel. -/
theorem c6_transitive_instancing (p : TsGdProject) (A B C : AssetGodotScene)
    (aRoot bRoot cRoot : GodotNodeData) (ia ib scid : Nat)
    (resA resB resC : ResourceTemp) (sf sf2 : AssetSourceFile)
    (cname : String) (fuel : Nat)
    (h1 : rootNodeOf A = some aRoot)
    (h2 : strOptTruthy aRoot.type = false)
    (h3 : instanceId aRoot = some ia) (h4 : ia ≠ 0)
    (h5 : A.resources.find? (fun r => r.id == ia) = some resA)
    (h6 : (godotScenes p).find? (fun sc => sc.fsPath == resA.fsPath) = some B)
    (h7 : rootNodeOf B = some bRoot)
    (h8 : natOptTruthy bRoot.scriptExtResourceId = false)
    (h9 : instanceId bRoot = some ib) (h10 : ib ≠ 0)
    (h11 : B.resources.find? (fun r => r.id == ib) = some resB)
    (h12 : (godotScenes p).find? (fun sc => sc.fsPath == resB.fsPath) = some C)
    (h13 : rootNodeOf C = some cRoot)
    (h14 : cRoot.scriptExtResourceId = some scid) (h15 : scid ≠ 0)
    (h16 : C.resources.find? (fun r => r.id == scid) = some resC)
    (h17 : findSourceFileAsset p resC.resPath = some sf)
    (h18 : (sourceFiles p).find? (fun f => f.resPath == sf.resPath) = some sf2)
    (h19 : sf2.exportedTsClassName = some cname) (h20 : cname ≠ "") :
    nodeTsType p A aRoot (fuel + 2) = Except.ok (importString sf2, []) := by
  have h15' : natOptTruthy (some scid) = true := by simp [natOptTruthy, h15]
  have hBscript : getScript p B bRoot = Except.ok (some sf) := by
    simp [getScript, h8, nodeInstance, h9, h11, h12, h13, h14, h15', h16, h17]
  have hBtype : resolveTsType p (fuel + 1) (TsTypeQuery.sceneQ B)
      = Except.ok (importString sf2, []) := by
    simp [resolveTsType, h7, hBscript, h18, strOptTruthy, h19, h20]
  have hov : isInstanceOverride aRoot = false := by
    simp [isInstanceOverride, isInstance, h3, natOptTruthy, h4]
  show resolveTsType p (fuel + 1 + 1) (TsTypeQuery.nodeQ A aRoot)
      = Except.ok (importString sf2, [])
  rw [resolveTsType]
  simp [h2, hov, nodeInstance, h3, h5, h6, hBtype, importString_ne_empty sf2]

/-- C6 (witness): the transitivity theorem evaluated on the concrete
A6 → B6 → C6 chain whose final script exports class CClass. -/
theorem c6_witness :
    nodeTsType c6Proj c6SceneA c6RootA 2 = Except.ok (importString c6Sf, []) :=
  c6_transitive_instancing c6Proj c6SceneA c6SceneB c6SceneC c6RootA c6RootB c6RootC
    2 3 7
    { resPath := "res://B6.tscn", fsPath := "B6.tscn", id := 2 }
    { resPath := "res://C6.tscn", fsPath := "C6.tscn", id := 3 }
    { resPath := "res://c.ts", fsPath := "game/c.ts", id := 7 }
    c6Sf c6Sf "CClass" 0
    rfl rfl rfl (by decide) rfl rfl rfl rfl rfl (by decide) rfl rfl rfl rfl
    (by decide) rfl rfl rfl rfl (by decide)

/-- C7 (counterexample): in the two-level chain where node NB (no script of
its own) instances scene B7 whose root has no direct script but instances
scene C7 with a concrete script, `getScript` on NB returns nothing while
`getScript` on B7's root returns C7's script — the claimed equality fails for
deeper chains, because the inheritance reads the instanced root's raw
`scriptExtResourceId` exactly one level, without recursing. -/
theorem c7_counterexample :
    natOptTruthy c7NodeN.scriptExtResourceId = false
    ∧ nodeInstance c7Proj c7SceneA c7NodeN
      = Except.ok (some (SceneOrGlb.scene c7SceneB))
    ∧ rootNodeOf c7SceneB = some c7RootB
    ∧ getScript c7Proj c7SceneA c7NodeN = Except.ok none
    ∧ getScript c7Proj c7SceneB c7RootB = Except.ok (some c7Sf) :=
  ⟨rfl, rfl, rfl, rfl, rfl⟩

/-- C7 (amended): for a node with no truthy script id of its own that
instances a scene whose root node directly declares a nonzero script id
present in that scene's table, `getScript` on the node equals `getScript` on
the instanced scene's root node (both resolve the same table entry to the
same project source-file lookup); the inheritance holds for exactly this
one level and is not followed recursively for deeper chains. -/
theorem c7_backingScript_inheritance (p : TsGdProject) (A B : AssetGodotScene)
    (n r : GodotNodeData) (sid : Nat) (res : ResourceTemp)
    (h0 : natOptTruthy n.scriptExtResourceId = false)
    (h1 : nodeInstance p A n = Except.ok (some (SceneOrGlb.scene B)))
    (h2 : rootNodeOf B = some r)
    (h3 : r.scriptExtResourceId = some sid) (h4 : sid ≠ 0)
    (h5 : B.resources.find? (fun x => x.id == sid) = some res) :
    getScript p A n = getScript p B r
    ∧ getScript p A n = Except.ok (findSourceFileAsset p res.resPath) := by
  have h4' : natOptTruthy (some sid) = true := by simp [natOptTruthy, h4]
  have hA : getScript p A n = Except.ok (findSourceFileAsset p res.resPath) := by
    simp [getScript, h0, h1, h2, h3, h4', h5]
  have hB : getScript p B r = Except.ok (findSourceFileAsset p res.resPath) := by
    simp [getScript, h3, h4', h5]
  exact ⟨hA.trans hB.symm, hA⟩

/-- C7 (witness): the one-level inheritance equality on the concrete fixture
where node ED instances scene D7 whose root declares script id 5. -/
theorem c7_witness :
    getScript c7wProj c7wSceneE c7wNodeE = getScript c7wProj c7wSceneD c7wRootD :=
  (c7_backingScript_inheritance c7wProj c7wSceneE c7wSceneD c7wNodeE c7wRootD 5
    { resPath := "res://w7.ts", fsPath := "game/w7.ts", id := 5 }
    rfl rfl rfl rfl (by decide) rfl).1

/-- C8: `children(N)` is exactly the owning scene's nodes whose parent
attribute equals N's `scenePath()` and that are not instance overrides;
consequently an override node never occurs in any `children()` result. -/
theorem c8_children_spec (s : AssetGodotScene) (n m : GodotNodeData) :
    (m ∈ childrenOf s n ↔
      m ∈ s.nodes ∧ m.parent = some (scenePath n) ∧ isInstanceOverride m = false)
    ∧ (isInstanceOverride m = true → m ∉ childrenOf s n) := by
  have hiff : m ∈ childrenOf s n ↔
      m ∈ s.nodes ∧ m.parent = some (scenePath n) ∧ isInstanceOverride m = false := by
    unfold childrenOf
    rw [List.mem_filter]
    cases hpar : m.parent with
    | none => simp [hpar]
    | some q => simp [hpar]
  refine ⟨hiff, ?_⟩
  intro ho hmem
  have h := hiff.mp hmem
  rw [ho] at h
  exact absurd h.2.2 (by simp)

/-- C8 (witness): on the fixture scene, the override node positioned under the
root is excluded from the root's children while the freshly declared child is
included. -/
theorem c8_witness :
    c8Ovr ∉ childrenOf c8Scene c8Root ∧ c8Child ∈ childrenOf c8Scene c8Root :=
  ⟨(c8_children_spec c8Scene c8Root c8Ovr).2 rfl,
   (c8_children_spec c8Scene c8Root c8Child).1.mpr ⟨by decide, rfl, rfl⟩⟩

/-- C9: asking `tsType()` of a node already classified as an instance override
appends the internal-bug diagnostic to the sink and returns the sentinel "any"
without throwing; a node with a (truthy) declared type gets that type back
unchanged with no diagnostic. -/
theorem c9_effectiveType_behavior (p : TsGdProject) (s : AssetGodotScene)
    (n : GodotNodeData) (fuel : Nat) :
    (isInstanceOverride n = true →
      nodeTsType p s n (fuel + 1) = Except.ok ("any", [overrideDiag n]))
    ∧ (∀ t : String, n.type = some t → t ≠ "" →
      nodeTsType p s n (fuel + 1) = Except.ok (t, [])) := by
  constructor
  · intro h
    have h1 : strOptTruthy n.type = false := by
      have h' := h
      unfold isInstanceOverride at h'
      rw [Bool.and_eq_true] at h'
      simpa using h'.1
    simp [nodeTsType, resolveTsType, h1, h]
  · intro t h1 h2
    simp [nodeTsType, resolveTsType, strOptTruthy, h1, h2]

/-- C9 (witness): the override fixture node yields "any" plus the internal-bug
diagnostic, and the typed fixture node yields its declared type unchanged. -/
theorem c9_witness :
    nodeTsType c9Proj c9Scene c9Ovr 1 = Except.ok ("any", [overrideDiag c9Ovr])
    ∧ nodeTsType c9Proj c9Scene c9Typed 1 = Except.ok ("Node2D", []) :=
  ⟨(c9_effectiveType_behavior c9Proj c9Scene c9Ovr 0).1 rfl,
   (c9_effectiveType_behavior c9Proj c9Scene c9Typed 0).2 "Node2D" rfl (by decide)⟩
